import Mathlib

/-!
Shallow embedding of the smart-ambulance vitals pipeline
(src/artifact_detection.py, src/anomaly_model.py, src/risk_logic.py,
src/api/app.py).

Missing values (float NaN in the Python code) are modelled as
`none : Option ℚ`; arithmetic propagates `none` and every ordered
comparison against `none` is `false`, matching NumPy/pandas semantics
for NaN.  Real arithmetic is modelled exactly over ℚ.
-/

namespace Ambulance

/-- Addition on possibly-missing values: NaN propagates. -/
def oadd (x y : Option ℚ) : Option ℚ :=
  match x, y with
  | some a, some b => some (a + b)
  | _, _ => none

/-- Pandas-style comparison `x > t`: false when x is NaN. -/
def oGTb (x : Option ℚ) (t : ℚ) : Bool :=
  match x with
  | some v => decide (t < v)
  | none => false

/-- Pandas-style comparison `x < t`: false when x is NaN. -/
def oLTb (x : Option ℚ) (t : ℚ) : Bool :=
  match x with
  | some v => decide (v < t)
  | none => false

/-- `Series.clip(lo, hi)` lifted to possibly-missing values (NaN stays NaN). -/
def oclip (lo hi : ℚ) (x : Option ℚ) : Option ℚ :=
  x.map (fun t => min hi (max lo t))

/-- A raw input sample: one row of the vitals frame
(`timestamp, heart_rate, spo2, bp_systolic, bp_diastolic, vibration`). -/
structure Sample where
  timestamp : ℚ
  heart_rate : Option ℚ
  spo2 : Option ℚ
  bp_systolic : Option ℚ
  bp_diastolic : Option ℚ
  vibration : ℚ
  deriving Inhabited

/-- `df_clean['is_motion'] = df_clean['vibration'] > motion_threshold` at row i. -/
def isMotionAt (mt : ℚ) (df : List Sample) (i : ℕ) : Bool :=
  decide (mt < (df.getD i default).vibration)

/-- `df_clean['motion_risk']`: centered rolling max of is_motion over a 5-sample
window (min_periods = 5, so incomplete windows give NaN), then `.fillna(0)`.
The value is always 0 or 1. -/
def motionRiskAt (mt : ℚ) (df : List Sample) (i : ℕ) : ℚ :=
  if 2 ≤ i ∧ i + 2 < df.length then
    if (List.range 5).any (fun k => isMotionAt mt df (i - 2 + k)) then 1 else 0
  else 0

/-- `column.diff().abs()` at row i: NaN at row 0 or when either value is NaN. -/
def absDiffAt (xs : List (Option ℚ)) (i : ℕ) : Option ℚ :=
  if i = 0 then none
  else
    match xs.getD i none, xs.getD (i - 1) none with
    | some a, some b => some |a - b|
    | _, _ => none

/-- spo2 artifact flag at row i: (motion_risk > 0.5 and |Δspo2| > 2.0)
or (motion_risk > 0.8 and spo2 < 85). -/
def spo2ArtifactAt (mt : ℚ) (df : List Sample) (i : ℕ) : Bool :=
  (decide ((1 : ℚ)/2 < motionRiskAt mt df i) && oGTb (absDiffAt (df.map (·.spo2)) i) 2)
  || (decide ((4 : ℚ)/5 < motionRiskAt mt df i) && oLTb ((df.getD i default).spo2) 85)

/-- hr artifact flag at row i: motion_risk > 0.5 and |Δheart_rate| > 5.0. -/
def hrArtifactAt (mt : ℚ) (df : List Sample) (i : ℕ) : Bool :=
  decide ((1 : ℚ)/2 < motionRiskAt mt df i) && oGTb (absDiffAt (df.map (·.heart_rate)) i) 5

/-- Largest index j < i whose entry is present, together with its value. -/
def findPrevValid (xs : List (Option ℚ)) : ℕ → Option (ℕ × ℚ)
  | 0 => none
  | j + 1 =>
    match xs.getD j none with
    | some v => some (j, v)
    | none => findPrevValid xs j

/-- Scan upward from index j (fuel-bounded) for the first present entry. -/
def findNextValidAux (xs : List (Option ℚ)) : ℕ → ℕ → Option (ℕ × ℚ)
  | 0, _ => none
  | fuel + 1, j =>
    if j < xs.length then
      match xs.getD j none with
      | some v => some (j, v)
      | none => findNextValidAux xs fuel (j + 1)
    else none

/-- Smallest index q > i whose entry is present, together with its value. -/
def findNextValid (xs : List (Option ℚ)) (i : ℕ) : Option (ℕ × ℚ) :=
  findNextValidAux xs xs.length (i + 1)

/-- `Series.interpolate(method='linear', limit=limit)` at position i:
present values are kept; a missing value is filled from the nearest valid
neighbours p < i < q by linear interpolation on the positional index
(clamping to the left value when no right neighbour exists), but only for
the first `limit` positions of each missing run; leading missing values
are never filled. -/
def interpAt (limit : ℕ) (xs : List (Option ℚ)) (i : ℕ) : Option ℚ :=
  match xs.getD i none with
  | some v => some v
  | none =>
    match findPrevValid xs i with
    | none => none
    | some (p, a) =>
      if p + limit < i then none
      else
        match findNextValid xs i with
        | some (q, b) => some (a + (b - a) * (((i : ℚ) - (p : ℚ)) / ((q : ℚ) - (p : ℚ))))
        | none => some a

/-- `Series.interpolate(method='linear', limit=limit)` over the whole column. -/
def interpolateLimit (limit : ℕ) (xs : List (Option ℚ)) : List (Option ℚ) :=
  (List.range xs.length).map (interpAt limit xs)

/-- `df_clean['artifact_confidence'] = 1 - vibration.rolling(60, center=True).mean().clip(0,1)`:
the centered 60-sample window at row i covers rows i-29 .. i+30; incomplete
windows give NaN (min_periods defaults to the window size). -/
def artifactConfidenceAt (df : List Sample) (i : ℕ) : Option ℚ :=
  if 29 ≤ i ∧ i + 30 < df.length then
    some (1 - min 1 (max 0
      ((((List.range 60).map (fun k => (df.getD (i - 29 + k) default).vibration)).sum) / 60)))
  else none

/-- One row of the cleaned frame produced by detect_and_clean_artifacts. -/
structure Cleaned where
  timestamp : ℚ
  heart_rate : Option ℚ
  spo2 : Option ℚ
  bp_systolic : Option ℚ
  bp_diastolic : Option ℚ
  vibration : ℚ
  hr_artifact : Bool
  spo2_artifact : Bool
  motion_risk : ℚ
  artifact_confidence : Option ℚ
  deriving Inhabited

/-- `detect_and_clean_artifacts(df, motion_threshold=mt)` from
src/artifact_detection.py: flag motion-coupled artifacts, clear flagged
values to NaN, linearly interpolate all NaNs with limit 30, and attach the
rolling artifact-confidence score. -/
def detect_and_clean_artifacts (mt : ℚ) (df : List Sample) : List Cleaned :=
  let n := df.length
  let hrCleared := (List.range n).map (fun i =>
    if hrArtifactAt mt df i then none else (df.getD i default).heart_rate)
  let spo2Cleared := (List.range n).map (fun i =>
    if spo2ArtifactAt mt df i then none else (df.getD i default).spo2)
  let hrInterp := interpolateLimit 30 hrCleared
  let spo2Interp := interpolateLimit 30 spo2Cleared
  (List.range n).map (fun i =>
    { timestamp := (df.getD i default).timestamp
      heart_rate := hrInterp.getD i none
      spo2 := spo2Interp.getD i none
      bp_systolic := (df.getD i default).bp_systolic
      bp_diastolic := (df.getD i default).bp_diastolic
      vibration := (df.getD i default).vibration
      hr_artifact := hrArtifactAt mt df i
      spo2_artifact := spo2ArtifactAt mt df i
      motion_risk := motionRiskAt mt df i
      artifact_confidence := artifactConfidenceAt df i })

/-- `np.mean` over a column with possible NaNs: NaN propagates, and the
mean of an empty array is NaN. -/
def npMean (v : List (Option ℚ)) : Option ℚ :=
  if v.length ≠ 0 ∧ v.all Option.isSome then
    some ((v.map (fun x => x.getD 0)).sum / v.length)
  else none

/-- `np.var` (population variance) over a column with possible NaNs:
NaN propagates, and the variance of an empty array is NaN. -/
def npVar (v : List (Option ℚ)) : Option ℚ :=
  if v.length ≠ 0 ∧ v.all Option.isSome then
    let m := (v.map (fun x => x.getD 0)).sum / v.length
    some ((v.map (fun x => (x.getD 0 - m) * (x.getD 0 - m))).sum / v.length)
  else none

/-- pandas `Series.mean()` (skipna=True): average of the present values,
NaN when none are present. -/
def pdMean (v : List (Option ℚ)) : Option ℚ :=
  let vals := v.filterMap id
  if vals.length = 0 then none else some (vals.sum / vals.length)

/-- `scipy.stats.linregress(t, v).slope` with t = 0, 1, ..., n-1:
the ordinary least squares slope (n·Σtv − Σt·Σv) / (n·Σt² − (Σt)²). -/
def olsSlope (v : List ℚ) : ℚ :=
  let n : ℚ := v.length
  let sv := ∑ i ∈ Finset.range v.length, v.getD i 0
  let st := ∑ i ∈ Finset.range v.length, (i : ℚ)
  let stv := ∑ i ∈ Finset.range v.length, (i : ℚ) * v.getD i 0
  let stt := ∑ i ∈ Finset.range v.length, (i : ℚ) * (i : ℚ)
  (n * stv - st * sv) / (n * stt - st * st)

/-- Per-column slope in extract_features: linregress only when the window
has more than one sample and no NaN, otherwise exactly 0.0. -/
def colSlope (v : List (Option ℚ)) : ℚ :=
  if 1 < v.length ∧ v.all Option.isSome then olsSlope (v.map (fun x => x.getD 0)) else 0

/-- The feature record returned by extract_features (src/anomaly_model.py). -/
structure Features where
  heart_rate_mean : Option ℚ
  heart_rate_var : Option ℚ
  heart_rate_slope : ℚ
  spo2_mean : Option ℚ
  spo2_var : Option ℚ
  spo2_slope : ℚ
  bp_systolic_mean : Option ℚ
  bp_systolic_var : Option ℚ
  bp_systolic_slope : ℚ
  confidence_mean : Option ℚ
  deriving Inhabited

/-- `extract_features(window)` from src/anomaly_model.py: np.mean / np.var
per vital, OLS slope guarded by `len(v) > 1 and not np.any(np.isnan(v))`,
and the pandas (NaN-skipping) mean of artifact_confidence. -/
def extract_features (w : List Cleaned) : Features :=
  { heart_rate_mean := npMean (w.map (·.heart_rate))
    heart_rate_var := npVar (w.map (·.heart_rate))
    heart_rate_slope := colSlope (w.map (·.heart_rate))
    spo2_mean := npMean (w.map (·.spo2))
    spo2_var := npVar (w.map (·.spo2))
    spo2_slope := colSlope (w.map (·.spo2))
    bp_systolic_mean := npMean (w.map (·.bp_systolic))
    bp_systolic_var := npVar (w.map (·.bp_systolic))
    bp_systolic_slope := colSlope (w.map (·.bp_systolic))
    confidence_mean := pdMean (w.map (·.artifact_confidence)) }

/-- Rule 1, Tachycardia Trend: heart_rate_slope > 0.05 and heart_rate_mean > 100. -/
def risingHR (f : Features) : Bool :=
  decide ((1 : ℚ)/20 < f.heart_rate_slope) && oGTb f.heart_rate_mean 100

/-- Rule 2, Desaturation Trend: spo2_slope < -0.01 and spo2_mean < 95. -/
def decliningSpO2 (f : Features) : Bool :=
  decide (f.spo2_slope < -(1 : ℚ)/100) && oLTb f.spo2_mean 95

/-- Rule 3, Hypertension Trend: bp_systolic_slope > 0.1 and bp_systolic_mean > 140. -/
def risingBP (f : Features) : Bool :=
  decide ((1 : ℚ)/10 < f.bp_systolic_slope) && oGTb f.bp_systolic_mean 140

/-- The `"; ".join(reasons)` string for the triggered rules, in rule order. -/
def anomalyReasons (f : Features) : String :=
  String.intercalate "; "
    ((if risingHR f then ["Rising HR trend"] else []) ++
     (if decliningSpO2 f then ["Declining SpO2 trend"] else []) ++
     (if risingBP f then ["Rising Systolic BP"] else []))

/-- One row of the anomaly frame produced by detect_anomalies (and the
single-row mini-batch the API builds for calculate_risk_and_alerts). -/
structure AnomalyRow where
  timestamp : ℚ
  is_anomaly : Bool
  confidence : Option ℚ
  reasons : String
  heart_rate_mean : Option ℚ
  heart_rate_var : Option ℚ
  heart_rate_slope : ℚ
  spo2_mean : Option ℚ
  spo2_var : Option ℚ
  spo2_slope : ℚ
  bp_systolic_mean : Option ℚ
  bp_systolic_var : Option ℚ
  bp_systolic_slope : ℚ
  deriving Inhabited

/-- Python `range(0, stop, step)` over ℕ (the list is empty when stop = 0). -/
def pyRange (stop step : ℕ) : List ℕ :=
  (List.range ((stop + step - 1) / step)).map (fun k => k * step)

/-- `detect_anomalies(df, window_size, step_size)` from src/anomaly_model.py:
one window per start in `range(0, len(df) - window_size, step_size)`. -/
def detect_anomalies (df : List Cleaned) (window_size step_size : ℕ) : List AnomalyRow :=
  (pyRange (df.length - window_size) step_size).map (fun start =>
    let w := (df.drop start).take window_size
    let f := extract_features w
    { timestamp := (w.getD (w.length - 1) default).timestamp
      is_anomaly := risingHR f || decliningSpO2 f || risingBP f
      confidence := f.confidence_mean
      reasons := anomalyReasons f
      heart_rate_mean := f.heart_rate_mean
      heart_rate_var := f.heart_rate_var
      heart_rate_slope := f.heart_rate_slope
      spo2_mean := f.spo2_mean
      spo2_var := f.spo2_var
      spo2_slope := f.spo2_slope
      bp_systolic_mean := f.bp_systolic_mean
      bp_systolic_var := f.bp_systolic_var
      bp_systolic_slope := f.bp_systolic_slope })

/-- Python's `f"{q:.2f}"` on an exact rational: two decimal digits,
rounding to the nearest hundredth (ties as in `round`; the claims under
study only inspect comment prefixes, never the rounded digits). -/
def fmt2 (q : ℚ) : String :=
  let c : ℤ := round (q * 100)
  let sign := if c < 0 then "-" else ""
  let a := c.natAbs
  sign ++ toString (a / 100) ++ "." ++ (if a % 100 < 10 then "0" else "") ++ toString (a % 100)

/-- Formatting of a possibly-missing value (`f"{nan:.2f}"` prints "nan"). -/
def fmt2o (x : Option ℚ) : String :=
  match x with
  | some q => fmt2 q
  | none => "nan"

/-- `get_alert_comment(row)` from src/risk_logic.py: the first matching
branch of CRITICAL / SUPPRESSED / WAITING / "Normal status.". -/
def get_alert_comment (alert breached acceptable persistent : Bool)
    (risk fc : Option ℚ) (reasons : String) : String :=
  if alert then
    "CRITICAL: High risk (" ++ fmt2o risk ++ ") with stable sensor (" ++
      fmt2o fc ++ "). " ++ reasons
  else if breached && !acceptable then
    "SUPPRESSED: High risk (" ++ fmt2o risk ++ ") but low confidence (" ++
      fmt2o fc ++ ") due to motion/artifacts."
  else if breached && !persistent then
    "WAITING: Risk threshold breached but awaiting trend persistence."
  else "Normal status."

/-- One row of the risk frame produced by calculate_risk_and_alerts. -/
structure RiskRecord where
  timestamp : ℚ
  is_anomaly : Bool
  confidence : Option ℚ
  reasons : String
  heart_rate_mean : Option ℚ
  heart_rate_var : Option ℚ
  heart_rate_slope : ℚ
  spo2_mean : Option ℚ
  spo2_slope : ℚ
  bp_systolic_mean : Option ℚ
  risk_score : Option ℚ
  sensor_stability : Option ℚ
  final_confidence : Option ℚ
  risk_threshold_breached : Bool
  confidence_acceptable : Bool
  persistent_risk : Bool
  alert_triggered : Bool
  alert_comment : String
  deriving Inhabited

/-- The per-row computation of calculate_risk_and_alerts, given the previous
window's risk_threshold_breached flag (false before the first window,
matching `.shift(1).fillna(False)`). -/
def riskRow (rt ct : ℚ) (prev : Bool) (a : AnomalyRow) : RiskRecord :=
  let hr_risk := (oclip 0 1 (a.heart_rate_mean.map (fun m => (m - 75) / (120 - 75)))).map
    (fun x => x * (2/5))
  let spo2_risk := (oclip 0 1 (a.spo2_mean.map (fun m => (98 - m) / (98 - 90)))).map
    (fun x => x * (2/5))
  let bp_risk := (oclip 0 1 (a.bp_systolic_mean.map (fun m => (m - 120) / (160 - 120)))).map
    (fun x => x * (1/5))
  let risk0 := oclip 0 1 (oadd (oadd hr_risk spo2_risk) bp_risk)
  let synergy := decide ((1 : ℚ)/50 < a.heart_rate_slope) && decide (a.spo2_slope < -(1 : ℚ)/200)
  let risk := oclip 0 1 (if synergy then risk0.map (fun x => x * (6/5)) else risk0)
  let stability := (oclip 0 (1/2) (a.heart_rate_var.map (fun v => v / 100))).map (fun x => 1 - x)
  let fc := oadd (a.confidence.map (fun c => c * (7/10))) (stability.map (fun s => s * (3/10)))
  let breached := oGTb risk rt
  let acceptable := oGTb fc ct
  let persistent := breached && prev
  let alert := persistent && acceptable
  { timestamp := a.timestamp
    is_anomaly := a.is_anomaly
    confidence := a.confidence
    reasons := a.reasons
    heart_rate_mean := a.heart_rate_mean
    heart_rate_var := a.heart_rate_var
    heart_rate_slope := a.heart_rate_slope
    spo2_mean := a.spo2_mean
    spo2_slope := a.spo2_slope
    bp_systolic_mean := a.bp_systolic_mean
    risk_score := risk
    sensor_stability := stability
    final_confidence := fc
    risk_threshold_breached := breached
    confidence_acceptable := acceptable
    persistent_risk := persistent
    alert_triggered := alert
    alert_comment := get_alert_comment alert breached acceptable persistent risk fc a.reasons }

/-- Row-by-row pass of calculate_risk_and_alerts, threading the previous
window's risk_threshold_breached flag. -/
def riskAux (rt ct : ℚ) : Bool → List AnomalyRow → List RiskRecord
  | _, [] => []
  | prev, a :: rest =>
    let r := riskRow rt ct prev a
    r :: riskAux rt ct r.risk_threshold_breached rest

/-- `calculate_risk_and_alerts(anomaly_df, risk_threshold, confidence_threshold)`
from src/risk_logic.py; the `.shift(1).fillna(False)` persistence check makes
the flag before the first row false. -/
def calculate_risk_and_alerts (rows : List AnomalyRow) (rt ct : ℚ) : List RiskRecord :=
  riskAux rt ct false rows

/-- The single-row mini-batch the /predict endpoint builds from the whole
supplied buffer (src/api/app.py, predict_risk). -/
def apiRow (data : List Sample) : AnomalyRow :=
  let clean := detect_and_clean_artifacts (3/5) data
  let f := extract_features clean
  { timestamp := (data.getD (data.length - 1) default).timestamp
    is_anomaly := false
    confidence := f.confidence_mean
    reasons := anomalyReasons f
    heart_rate_mean := f.heart_rate_mean
    heart_rate_var := f.heart_rate_var
    heart_rate_slope := f.heart_rate_slope
    spo2_mean := f.spo2_mean
    spo2_var := f.spo2_var
    spo2_slope := f.spo2_slope
    bp_systolic_mean := f.bp_systolic_mean
    bp_systolic_var := f.bp_systolic_var
    bp_systolic_slope := f.bp_systolic_slope }

/-- The `anomaly` field of the /predict response: `bool(result['alert_triggered'])`
for the single RiskRecord computed from the request's one-row mini-batch. -/
def predict_risk_anomaly (data : List Sample) : Bool :=
  match calculate_risk_and_alerts [apiRow data] (3/5) (7/10) with
  | r :: _ => r.alert_triggered
  | [] => false

/-- A sample with benign blood pressure, used by the concrete test inputs. -/
def mkS (hr spo2 : Option ℚ) (vib : ℚ) : Sample :=
  { timestamp := 0
    heart_rate := hr
    spo2 := spo2
    bp_systolic := some 120
    bp_diastolic := some 80
    vibration := vib }

/-- The anomaly window of the spec's two-window scenario: heart_rate_mean 115,
heart_rate_slope 0.08, spo2_mean 90, spo2_slope -0.02, confidence_mean 0.9,
heart_rate_variance 5, with a parametric bp_systolic_mean. -/
def scenarioRow (bp : ℚ) : AnomalyRow :=
  { timestamp := 0
    is_anomaly := true
    confidence := some (9/10)
    reasons := "Rising HR trend; Declining SpO2 trend"
    heart_rate_mean := some 115
    heart_rate_var := some 5
    heart_rate_slope := 2/25
    spo2_mean := some 90
    spo2_var := some 0
    spo2_slope := -(1/50)
    bp_systolic_mean := some bp
    bp_systolic_var := some 0
    bp_systolic_slope := 0 }

/-- An anomaly window whose computed risk score is exactly 1 while the fused
confidence is 0.5: hr 150, spo2 80, bp 160, hr variance 100, confidence 0.5. -/
def maxRiskLowConfRow : AnomalyRow :=
  { timestamp := 0
    is_anomaly := true
    confidence := some (1/2)
    reasons := "Rising HR trend"
    heart_rate_mean := some 150
    heart_rate_var := some 100
    heart_rate_slope := 0
    spo2_mean := some 80
    spo2_var := some 0
    spo2_slope := 0
    bp_systolic_mean := some 160
    bp_systolic_var := some 0
    bp_systolic_slope := 0 }

/-- Ten benign samples (a minimal valid /predict request). -/
def inp10 : List Sample := (List.range 10).map (fun _ => mkS (some 80) (some 98) 0)

/-- Sixty-one motionless samples, long enough for one complete confidence window. -/
def inp61 : List Sample := (List.range 61).map (fun _ => mkS (some 80) (some 98) 0)

/-- Heart rate known at rows 0 (value 100) and 32 (value 133), unknown on the
31 rows in between; no motion anywhere. -/
def inp33 : List Sample :=
  (List.range 33).map (fun i =>
    if i = 0 then mkS (some 100) (some 98) 0
    else if i = 32 then mkS (some 133) (some 98) 0
    else mkS none (some 98) 0)

/-- SpO2 known at rows 0 (value 98) and 32 (value 66), unknown on the 31
rows in between; no motion anywhere. -/
def inp33s : List Sample :=
  (List.range 33).map (fun i =>
    if i = 0 then mkS (some 80) (some 98) 0
    else if i = 32 then mkS (some 80) (some 66) 0
    else mkS (some 80) none 0)

/-- Sixty-two samples: heavy vibration on rows 0-1, none afterwards, and an
abrupt heart-rate jump at row 2 (inside the zero-vibration span rows 2-61). -/
def inp62 : List Sample :=
  (List.range 62).map (fun i =>
    if i < 2 then mkS (some 80) (some 98) 1
    else if i = 2 then mkS (some 120) (some 98) 0
    else mkS (some 80) (some 98) 0)

/-- A two-row cleaned window whose second heart-rate and confidence values
are unknown. -/
def w5 : List Cleaned :=
  [{ (default : Cleaned) with
      heart_rate := some 80
      artifact_confidence := some 1 },
   { (default : Cleaned) with
      heart_rate := none
      artifact_confidence := none }]

/-- A two-row cleaned window with strictly increasing heart rate 1, 2. -/
def wInc : List Cleaned :=
  [{ (default : Cleaned) with heart_rate := some 1 },
   { (default : Cleaned) with heart_rate := some 2 }]

/-- A two-row cleaned window with constant heart rate 5, 5. -/
def wConst : List Cleaned :=
  [{ (default : Cleaned) with heart_rate := some 5 },
   { (default : Cleaned) with heart_rate := some 5 }]

/-! ## Shared lemmas -/

theorem getD_range_map {α : Type} (f : ℕ → α) (n i : ℕ) (h : i < n) (d : α) :
    ((List.range n).map f).getD i d = f i := by
  rw [List.getD_eq_getElem?_getD]
  simp [List.getElem?_map, List.getElem?_range, h]

theorem clean_length (mt : ℚ) (df : List Sample) :
    (detect_and_clean_artifacts mt df).length = df.length := by
  simp [detect_and_clean_artifacts]

/-- Row i of the cleaned frame, written out field by field. -/
theorem clean_getD (mt : ℚ) (df : List Sample) (i : ℕ) (hi : i < df.length) :
    (detect_and_clean_artifacts mt df).getD i default =
      { timestamp := (df.getD i default).timestamp
        heart_rate := (interpolateLimit 30 ((List.range df.length).map (fun j =>
          if hrArtifactAt mt df j then none else (df.getD j default).heart_rate))).getD i none
        spo2 := (interpolateLimit 30 ((List.range df.length).map (fun j =>
          if spo2ArtifactAt mt df j then none else (df.getD j default).spo2))).getD i none
        bp_systolic := (df.getD i default).bp_systolic
        bp_diastolic := (df.getD i default).bp_diastolic
        vibration := (df.getD i default).vibration
        hr_artifact := hrArtifactAt mt df i
        spo2_artifact := spo2ArtifactAt mt df i
        motion_risk := motionRiskAt mt df i
        artifact_confidence := artifactConfidenceAt df i } := by
  simp only [detect_and_clean_artifacts]
  rw [getD_range_map _ _ _ hi]

theorem oclip01_bounds (x : Option ℚ) (r : ℚ) (h : oclip 0 1 x = some r) :
    0 ≤ r ∧ r ≤ 1 := by
  cases x with
  | none => simp [oclip] at h
  | some t =>
    simp only [oclip, Option.map_some', Option.some.injEq] at h
    refine ⟨?_, ?_⟩
    · rw [← h]; exact le_min zero_le_one (le_max_left 0 t)
    · rw [← h]; exact min_le_left 1 (max 0 t)

theorem inp61_length : inp61.length = 61 := by simp [inp61]

theorem inp61_getD (i : ℕ) (h : i < 61) : inp61.getD i default = mkS (some 80) (some 98) 0 := by
  rw [inp61, getD_range_map _ _ _ h]

/-- Position 29 of the motionless 61-sample stream has a complete confidence
window whose vibration mean is 0, hence artifact_confidence exactly 1. -/
theorem inp61_conf_at_29 :
    ((detect_and_clean_artifacts (3/5) inp61).getD 29 default).artifact_confidence = some 1 := by
  rw [clean_getD _ _ _ (by rw [inp61_length]; omega)]
  show artifactConfidenceAt inp61 29 = some 1
  rw [artifactConfidenceAt, if_pos]
  · have hsum : (((List.range 60).map
        (fun k => (inp61.getD (29 - 29 + k) default).vibration)).sum) = 0 := by
      apply List.sum_eq_zero
      intro x hx
      obtain ⟨k, hk, rfl⟩ := List.mem_map.mp hx
      have hk60 : k < 60 := List.mem_range.mp hk
      rw [inp61_getD _ (by omega)]
      rfl
    rw [hsum]
    norm_num [min_def, max_def]
  · exact ⟨le_refl 29, by rw [inp61_length]; omega⟩

theorem maxRisk_risk_score (prev : Bool) :
    (riskRow (3/5) (7/10) prev maxRiskLowConfRow).risk_score = some 1 := by
  norm_num [riskRow, maxRiskLowConfRow, oclip, oadd, min_def, max_def]

theorem maxRisk_final_confidence (prev : Bool) :
    (riskRow (3/5) (7/10) prev maxRiskLowConfRow).final_confidence = some (1/2) := by
  norm_num [riskRow, maxRiskLowConfRow, oclip, oadd, min_def, max_def]

theorem riskRow_breached_eq (rt ct : ℚ) (prev : Bool) (a : AnomalyRow) :
    (riskRow rt ct prev a).risk_threshold_breached =
      oGTb (riskRow rt ct prev a).risk_score rt := rfl

theorem riskRow_acceptable_eq (rt ct : ℚ) (prev : Bool) (a : AnomalyRow) :
    (riskRow rt ct prev a).confidence_acceptable =
      oGTb (riskRow rt ct prev a).final_confidence ct := rfl

theorem riskRow_persistent_eq (rt ct : ℚ) (prev : Bool) (a : AnomalyRow) :
    (riskRow rt ct prev a).persistent_risk =
      ((riskRow rt ct prev a).risk_threshold_breached && prev) := rfl

theorem riskRow_alert_eq (rt ct : ℚ) (prev : Bool) (a : AnomalyRow) :
    (riskRow rt ct prev a).alert_triggered =
      ((riskRow rt ct prev a).persistent_risk &&
        (riskRow rt ct prev a).confidence_acceptable) := rfl

theorem riskRow_comment_eq (rt ct : ℚ) (prev : Bool) (a : AnomalyRow) :
    (riskRow rt ct prev a).alert_comment =
      get_alert_comment (riskRow rt ct prev a).alert_triggered
        (riskRow rt ct prev a).risk_threshold_breached
        (riskRow rt ct prev a).confidence_acceptable
        (riskRow rt ct prev a).persistent_risk
        (riskRow rt ct prev a).risk_score
        (riskRow rt ct prev a).final_confidence a.reasons := rfl

/-- Evaluation of the spec's scenario window: risk_score is 68/75 (the hr
component is clip((115-75)/45,0,1)·0.4 = 16/45, the spo2 component 2/5, the
bp component 0, and the 1.2 synergy multiplier applies), the stability is
19/20 and the fused confidence 183/200. -/
theorem scenario_record (prev : Bool) (bp : ℚ) (hbp : bp ≤ 120) :
    (riskRow (3/5) (7/10) prev (scenarioRow bp)).risk_score = some (68/75) ∧
    (riskRow (3/5) (7/10) prev (scenarioRow bp)).sensor_stability = some (19/20) ∧
    (riskRow (3/5) (7/10) prev (scenarioRow bp)).final_confidence = some (183/200) := by
  have hd : (bp - 120) / (160 - 120) ≤ 0 := by
    apply div_nonpos_of_nonpos_of_nonneg <;> linarith
  have hmax : max 0 ((bp - 120) / (160 - 120)) = 0 := max_eq_left hd
  have hmin : min 1 (max 0 ((bp - 120) / (160 - 120))) = 0 := by
    rw [hmax]; exact min_eq_right zero_le_one
  refine ⟨?_, ?_, ?_⟩
  · simp only [riskRow, scenarioRow, oclip, oadd, Option.map_some']
    rw [hmin]
    norm_num [min_def, max_def]
  · norm_num [riskRow, scenarioRow, oclip, oadd, min_def, max_def]
  · norm_num [riskRow, scenarioRow, oclip, oadd, min_def, max_def]

theorem scenario_breached (prev : Bool) (bp : ℚ) (hbp : bp ≤ 120) :
    (riskRow (3/5) (7/10) prev (scenarioRow bp)).risk_threshold_breached = true := by
  rw [riskRow_breached_eq, (scenario_record prev bp hbp).1]
  simp only [oGTb, decide_eq_true_eq]
  norm_num

theorem scenario_acceptable (prev : Bool) (bp : ℚ) (hbp : bp ≤ 120) :
    (riskRow (3/5) (7/10) prev (scenarioRow bp)).confidence_acceptable = true := by
  rw [riskRow_acceptable_eq, (scenario_record prev bp hbp).2.2]
  simp only [oGTb, decide_eq_true_eq]
  norm_num

theorem scenario_out_getD0 (bp : ℚ) :
    (calculate_risk_and_alerts [scenarioRow bp, scenarioRow bp] (3/5) (7/10)).getD 0 default =
      riskRow (3/5) (7/10) false (scenarioRow bp) := rfl

theorem scenario_out_getD1 (bp : ℚ) :
    (calculate_risk_and_alerts [scenarioRow bp, scenarioRow bp] (3/5) (7/10)).getD 1 default =
      riskRow (3/5) (7/10)
        ((riskRow (3/5) (7/10) false (scenarioRow bp)).risk_threshold_breached)
        (scenarioRow bp) := rfl

/-- On the scenario's second window the alert fires: both windows breach the
risk threshold and the fused confidence is acceptable. -/
theorem scenario_alert_at_1 (bp : ℚ) (hbp : bp ≤ 120) :
    ((calculate_risk_and_alerts [scenarioRow bp, scenarioRow bp] (3/5) (7/10)).getD 1
      default).alert_triggered = true := by
  rw [scenario_out_getD1, riskRow_alert_eq, riskRow_persistent_eq,
    scenario_breached _ bp hbp, scenario_acceptable _ bp hbp,
    scenario_breached false bp hbp]
  rfl

/-- Python's `range(0, stop, step)` enumerates exactly the multiples of
`step` below `stop`, in order. -/
theorem pyRange_eq_filter (S : ℕ) (hS : 0 < S) :
    ∀ stop, pyRange stop S = (List.range stop).filter (fun s => decide (S ∣ s)) := by
  intro stop
  induction stop with
  | zero =>
    rw [pyRange, Nat.zero_add, Nat.div_eq_of_lt (by omega)]
    rfl
  | succ n ihn =>
    rw [List.range_succ, List.filter_append, ← ihn]
    by_cases hdvd : S ∣ n
    · obtain ⟨q, rfl⟩ := hdvd
      have hq1 : (S * q + 1 + S - 1) / S = q + 1 := by
        have : S * q + 1 + S - 1 = S + S * q := by omega
        rw [this, Nat.add_mul_div_left _ _ hS, Nat.div_self hS, Nat.add_comm]
      have hq2 : (S * q + S - 1) / S = q := by
        have : S * q + S - 1 = (S - 1) + S * q := by omega
        rw [this, Nat.add_mul_div_left _ _ hS, Nat.div_eq_of_lt (by omega), Nat.zero_add]
      rw [pyRange, pyRange, hq1, hq2, List.range_succ, List.map_append]
      have hfilter : List.filter (fun s => decide (S ∣ s)) [S * q] = [S * q] := by
        simp [List.filter]
      rw [hfilter]
      have hmap : List.map (fun k => k * S) [q] = [S * q] := by
        simp [Nat.mul_comm]
      rw [hmap]
    · have hn1 : 1 ≤ n := by
        rcases Nat.eq_zero_or_pos n with rfl | h
        · exact absurd (dvd_zero S) hdvd
        · exact h
      have hq1 : (n + 1 + S - 1) / S = n / S + 1 := by
        have : n + 1 + S - 1 = n + S := by omega
        rw [this, Nat.add_div_right _ hS]
      have hq2 : (n + S - 1) / S = n / S + 1 := by
        have h1 : n + S - 1 = (n - 1) + S := by omega
        rw [h1, Nat.add_div_right _ hS]
        have h2 : n = (n - 1) + 1 := by omega
        have h3 : n / S = (n - 1) / S + if S ∣ n then 1 else 0 := by
          conv_lhs => rw [h2]
          rw [Nat.succ_div, ← h2]
        rw [h3, if_neg hdvd]
      have hfilter : List.filter (fun s => decide (S ∣ s)) [n] = [] := by
        simp [List.filter, hdvd]
      rw [hfilter, List.append_nil, pyRange, pyRange, hq1, hq2]

/-- Cutting `range L` with an extra `s < M` conjunct is the same as
filtering `range M`, when M ≤ L. -/
theorem filter_range_and_lt (p : ℕ → Bool) (M : ℕ) :
    ∀ L, M ≤ L →
      (List.range L).filter (fun s => p s && decide (s < M)) = (List.range M).filter p := by
  intro L
  induction L with
  | zero =>
    intro hML
    have : M = 0 := by omega
    subst this
    rfl
  | succ n ihn =>
    intro hML
    rcases Nat.lt_or_ge M (n + 1) with h | h
    · have hM : M ≤ n := by omega
      rw [List.range_succ, List.filter_append, ihn hM]
      have hlast : List.filter (fun s => p s && decide (s < M)) [n] = [] := by
        simp [List.filter, decide_eq_false (by omega : ¬ n < M)]
      rw [hlast, List.append_nil]
    · have hM : M = n + 1 := by omega
      subst hM
      apply List.filter_congr
      intro x hx
      have hxn := List.mem_range.mp hx
      simp [decide_eq_true (by omega : x < n + 1)]

/-- Symmetrised form of the OLS covariance numerator:
the double sum of (a i - a j)(b i - b j) is twice n·Σab − Σa·Σb. -/
theorem double_sum_expand (n : ℕ) (a b : ℕ → ℚ) :
    ∑ i ∈ Finset.range n, ∑ j ∈ Finset.range n, (a i - a j) * (b i - b j)
      = 2 * ((n : ℚ) * ∑ i ∈ Finset.range n, a i * b i
        - (∑ i ∈ Finset.range n, a i) * (∑ i ∈ Finset.range n, b i)) := by
  have hexp : ∀ i j : ℕ, (a i - a j) * (b i - b j)
      = a i * b i - a i * b j - a j * b i + a j * b j := by
    intro i j
    ring
  simp_rw [hexp, Finset.sum_add_distrib, Finset.sum_sub_distrib, Finset.sum_const,
    Finset.card_range, nsmul_eq_mul, ← Finset.mul_sum, ← Finset.sum_mul]
  rw [← Finset.mul_sum]
  ring

/-- Each symmetrised term is nonnegative when b is strictly increasing on
the index range. -/
theorem cheb_term_nonneg (n : ℕ) (b : ℕ → ℚ) (hb : ∀ i j, i < j → j < n → b i < b j)
    (i j : ℕ) (hi : i < n) (hj : j < n) : 0 ≤ ((i : ℚ) - (j : ℚ)) * (b i - b j) := by
  rcases lt_trichotomy i j with h | rfl | h
  · have h1 : (i : ℚ) < (j : ℚ) := by exact_mod_cast h
    have h2 : b i < b j := hb i j h hj
    nlinarith
  · simp
  · have h1 : (j : ℚ) < (i : ℚ) := by exact_mod_cast h
    have h2 : b j < b i := hb j i h hi
    nlinarith

/-- Strict Chebyshev-type inequality: for a strictly increasing b over at
least two indices, n·Σ i·b i exceeds Σi · Σb. -/
theorem chebyshev_pos (n : ℕ) (hn : 2 ≤ n) (b : ℕ → ℚ)
    (hb : ∀ i j, i < j → j < n → b i < b j) :
    0 < (n : ℚ) * (∑ i ∈ Finset.range n, (i : ℚ) * b i)
      - (∑ i ∈ Finset.range n, (i : ℚ)) * (∑ i ∈ Finset.range n, b i) := by
  have key := double_sum_expand n (fun i => (i : ℚ)) b
  have hpos : 0 < ∑ i ∈ Finset.range n, ∑ j ∈ Finset.range n,
      (((i : ℚ) - (j : ℚ)) * (b i - b j)) := by
    apply Finset.sum_pos'
    · intro i hi
      exact Finset.sum_nonneg (fun j hj => cheb_term_nonneg n b hb i j
        (Finset.mem_range.mp hi) (Finset.mem_range.mp hj))
    · refine ⟨0, Finset.mem_range.mpr (by omega), ?_⟩
      apply Finset.sum_pos'
      · intro j hj
        exact cheb_term_nonneg n b hb 0 j (by omega) (Finset.mem_range.mp hj)
      · refine ⟨1, Finset.mem_range.mpr (by omega), ?_⟩
        have h2 : b 0 < b 1 := hb 0 1 (by omega) (by omega)
        have : ((0 : ℕ) : ℚ) - ((1 : ℕ) : ℚ) = -1 := by norm_num
        nlinarith
  rw [key] at hpos
  linarith

/-- The OLS slope of a strictly increasing series is positive. -/
theorem olsSlope_pos (v : List ℚ) (hlen : 2 ≤ v.length)
    (hmono : ∀ i j, i < j → j < v.length → v.getD i 0 < v.getD j 0) :
    0 < olsSlope v := by
  have hnum := chebyshev_pos v.length hlen (fun i => v.getD i 0) hmono
  have hden := chebyshev_pos v.length hlen (fun i => (i : ℚ))
    (fun i j hij _ => by
      show (i : ℚ) < (j : ℚ)
      exact_mod_cast hij)
  simp only [olsSlope]
  exact div_pos hnum hden

/-- The OLS slope of a constant series is exactly 0. -/
theorem olsSlope_const (v : List ℚ) (c : ℚ)
    (hconst : ∀ i, i < v.length → v.getD i 0 = c) :
    olsSlope v = 0 := by
  simp only [olsSlope]
  have h1 : ∑ i ∈ Finset.range v.length, v.getD i 0 = (v.length : ℚ) * c := by
    rw [Finset.sum_congr rfl (fun i hi => hconst i (Finset.mem_range.mp hi))]
    rw [Finset.sum_const, Finset.card_range, nsmul_eq_mul]
  have h2 : ∑ i ∈ Finset.range v.length, (i : ℚ) * v.getD i 0
      = (∑ i ∈ Finset.range v.length, (i : ℚ)) * c := by
    rw [Finset.sum_mul]
    apply Finset.sum_congr rfl
    intro i hi
    rw [hconst i (Finset.mem_range.mp hi)]
  rw [h1, h2]
  have h3 : (v.length : ℚ) * ((∑ i ∈ Finset.range v.length, (i : ℚ)) * c)
      - (∑ i ∈ Finset.range v.length, (i : ℚ)) * ((v.length : ℚ) * c) = 0 := by
    ring
  rw [h3, zero_div]

/-- findPrevValid lands on the valid left neighbour of a missing run. -/
theorem findPrevValid_run (xs : List (Option ℚ)) (s : ℕ) (a : ℚ) (hs : 1 ≤ s)
    (hsome : xs.getD (s - 1) none = some a) :
    ∀ i, s ≤ i → (∀ j, s ≤ j → j < i → xs.getD j none = none) →
      findPrevValid xs i = some (s - 1, a) := by
  intro i
  induction i with
  | zero =>
    intro h _
    omega
  | succ k ihk =>
    intro hsk hrun
    rcases Nat.lt_or_ge k s with hk | hk
    · have hks : xs.getD k none = some a := by
        have : k = s - 1 := by omega
        rw [this]
        exact hsome
      simp only [findPrevValid, hks]
      have : k = s - 1 := by omega
      rw [this]
    · have hknone : xs.getD k none = none := hrun k hk (Nat.lt_succ_self k)
      simp only [findPrevValid, hknone]
      exact ihk hk (fun j hj hj2 => hrun j hj (by omega))

/-- The fuel-bounded upward scan lands on the valid right neighbour of a
missing run. -/
theorem findNextValidAux_run (xs : List (Option ℚ)) (e : ℕ) (b : ℚ)
    (hb : xs.getD (e + 1) none = some b) (he : e + 1 < xs.length) :
    ∀ (fuel j : ℕ), j ≤ e + 1 → (∀ k, j ≤ k → k ≤ e → xs.getD k none = none) →
      e + 2 ≤ j + fuel → findNextValidAux xs fuel j = some (e + 1, b) := by
  intro fuel
  induction fuel with
  | zero =>
    intro j hj _ hfuel
    omega
  | succ f ihf =>
    intro j hj hrun hfuel
    have hjlen : j < xs.length := by omega
    rcases Nat.lt_or_ge j (e + 1) with hje | hje
    · have hjnone : xs.getD j none = none := hrun j le_rfl (by omega)
      simp only [findNextValidAux, if_pos hjlen, hjnone]
      exact ihf (j + 1) (by omega) (fun k hk1 hk2 => hrun k (by omega) hk2) (by omega)
    · have hj1 : j = e + 1 := by omega
      subst hj1
      simp only [findNextValidAux, if_pos hjlen, hb]

/-- Behaviour of limited linear interpolation on a missing run s..e with
valid neighbours at s-1 and e+1: the first `limit` positions of the run are
filled with the linear interpolant, the remaining ones stay missing. -/
theorem interpAt_gap (xs : List (Option ℚ)) (s e : ℕ) (a b : ℚ)
    (hs : 1 ≤ s) (he : e + 1 < xs.length)
    (hprev : xs.getD (s - 1) none = some a)
    (hnext : xs.getD (e + 1) none = some b)
    (hrun : ∀ j, s ≤ j → j ≤ e → xs.getD j none = none) :
    ∀ i, s ≤ i → i ≤ e →
      interpAt 30 xs i = if i < s + 30
        then some (a + (b - a) * (((i : ℚ) - ((s - 1 : ℕ) : ℚ)) /
          (((e + 1 : ℕ) : ℚ) - ((s - 1 : ℕ) : ℚ))))
        else none := by
  intro i hsi hie
  have hinone : xs.getD i none = none := hrun i hsi hie
  have hprev' : findPrevValid xs i = some (s - 1, a) :=
    findPrevValid_run xs s a hs hprev i hsi (fun j hj hj2 => hrun j hj (by omega))
  have hnext' : findNextValid xs i = some (e + 1, b) := by
    rw [findNextValid]
    exact findNextValidAux_run xs e b hnext he xs.length (i + 1) (by omega)
      (fun k hk1 hk2 => hrun k (by omega) hk2) (by omega)
  simp only [interpAt, hinone, hprev', hnext']
  by_cases hlim : i < s + 30
  · rw [if_neg (by omega), if_pos hlim]
  · rw [if_pos (by omega), if_neg hlim]

/-- With every vibration at or below the threshold in the 5-row motion
window around i, motion_risk at i is 0 (incomplete edge windows are 0 by
fillna). -/
theorem motionRisk_zero_of_local_low_vib (mt : ℚ) (df : List Sample) (i : ℕ)
    (hvib : ∀ j, j < df.length → i ≤ j + 2 → j ≤ i + 2 →
      (df.getD j default).vibration ≤ mt) :
    motionRiskAt mt df i = 0 := by
  rw [motionRiskAt]
  split
  · rename_i h
    rw [if_neg]
    intro hany
    obtain ⟨k, hk, hkm⟩ := List.any_eq_true.mp hany
    have hk5 := List.mem_range.mp hk
    rw [isMotionAt, decide_eq_true_eq] at hkm
    have h1 : i - 2 + k < df.length := by omega
    have h2 : i ≤ (i - 2 + k) + 2 := by omega
    have h3 : i - 2 + k ≤ i + 2 := by omega
    exact absurd hkm (not_lt.mpr (hvib _ h1 h2 h3))
  · rfl

theorem hr_artifact_false_of_motionRisk_zero (mt : ℚ) (df : List Sample) (i : ℕ)
    (h : motionRiskAt mt df i = 0) : hrArtifactAt mt df i = false := by
  rw [hrArtifactAt, h, decide_eq_false (by norm_num : ¬ ((1 : ℚ)/2 < 0)), Bool.false_and]

theorem spo2_artifact_false_of_motionRisk_zero (mt : ℚ) (df : List Sample) (i : ℕ)
    (h : motionRiskAt mt df i = 0) : spo2ArtifactAt mt df i = false := by
  rw [spo2ArtifactAt, h, decide_eq_false (by norm_num : ¬ ((1 : ℚ)/2 < 0)),
    decide_eq_false (by norm_num : ¬ ((4 : ℚ)/5 < 0)), Bool.false_and, Bool.false_and,
    Bool.or_self]

/-- The cleaned heart-rate column of a motion-free input equals its raw
heart-rate column before interpolation. -/
theorem hrCleared_of_low_vib (df : List Sample)
    (hvib : ∀ j, j < df.length → (df.getD j default).vibration ≤ 3/5) :
    ∀ j, j < df.length →
      ((List.range df.length).map (fun k =>
        if hrArtifactAt (3/5) df k then none else (df.getD k default).heart_rate)).getD j none
        = (df.getD j default).heart_rate := by
  intro j hj
  rw [getD_range_map _ _ _ hj]
  rw [hr_artifact_false_of_motionRisk_zero _ _ _
    (motionRisk_zero_of_local_low_vib (3/5) df j (fun k hk _ _ => hvib k hk))]
  rfl

/-- Gap analysis lifted to the full cleaning pass, for motion-free inputs:
on a missing heart-rate run s..e with valid neighbours, positions before
s + 30 are interpolated, later ones stay unknown. -/
theorem clean_hr_gap (df : List Sample) (s e : ℕ) (a b : ℚ)
    (hvib : ∀ j, j < df.length → (df.getD j default).vibration ≤ 3/5)
    (hs : 1 ≤ s) (he : e + 1 < df.length)
    (hprev : (df.getD (s - 1) default).heart_rate = some a)
    (hnext : (df.getD (e + 1) default).heart_rate = some b)
    (hrun : ∀ j, s ≤ j → j ≤ e → (df.getD j default).heart_rate = none) :
    ∀ i, s ≤ i → i ≤ e →
      ((detect_and_clean_artifacts (3/5) df).getD i default).heart_rate =
        if i < s + 30
        then some (a + (b - a) * (((i : ℚ) - ((s - 1 : ℕ) : ℚ)) /
          (((e + 1 : ℕ) : ℚ) - ((s - 1 : ℕ) : ℚ))))
        else none := by
  intro i hsi hie
  have hi : i < df.length := by omega
  rw [clean_getD _ _ _ hi]
  show (interpolateLimit 30 ((List.range df.length).map (fun k =>
    if hrArtifactAt (3/5) df k then none else (df.getD k default).heart_rate))).getD i none
    = _
  have hxs_len : ((List.range df.length).map (fun k =>
      if hrArtifactAt (3/5) df k then none else (df.getD k default).heart_rate)).length
      = df.length := by
    simp
  have hinterp : (interpolateLimit 30 ((List.range df.length).map (fun k =>
      if hrArtifactAt (3/5) df k then none else (df.getD k default).heart_rate))).getD i none
      = interpAt 30 ((List.range df.length).map (fun k =>
        if hrArtifactAt (3/5) df k then none else (df.getD k default).heart_rate)) i := by
    rw [interpolateLimit, hxs_len, getD_range_map _ _ _ hi]
  rw [hinterp]
  exact interpAt_gap _ s e a b hs (by rw [hxs_len]; omega)
    (by rw [hrCleared_of_low_vib df hvib (s - 1) (by omega)]; exact hprev)
    (by rw [hrCleared_of_low_vib df hvib (e + 1) (by omega)]; exact hnext)
    (fun j hj1 hj2 => by
      rw [hrCleared_of_low_vib df hvib j (by omega)]
      exact hrun j hj1 hj2)
    i hsi hie

/-- Aggregates of a column containing an unknown value: np.mean and np.var
propagate it and the slope is forced to 0. -/
theorem col_unknown_propagation (v : List (Option ℚ))
    (hmiss : v.any (fun x => x.isNone) = true) :
    npMean v = none ∧ npVar v = none ∧ colSlope v = 0 := by
  obtain ⟨x, hxmem, hxnone⟩ := List.any_eq_true.mp hmiss
  have hnotall : ¬ v.all Option.isSome = true := by
    intro hall
    have := List.all_eq_true.mp hall x hxmem
    rw [Option.isNone_iff_eq_none.mp hxnone] at this
    simp at this
  refine ⟨?_, ?_, ?_⟩
  · rw [npMean, if_neg]
    rintro ⟨-, hall⟩
    exact hnotall hall
  · rw [npVar, if_neg]
    rintro ⟨-, hall⟩
    exact hnotall hall
  · rw [colSlope, if_neg]
    rintro ⟨-, hall⟩
    exact hnotall hall

/-- The cleaned spo2 column of a motion-free input equals its raw spo2
column before interpolation. -/
theorem spo2Cleared_of_low_vib (df : List Sample)
    (hvib : ∀ j, j < df.length → (df.getD j default).vibration ≤ 3/5) :
    ∀ j, j < df.length →
      ((List.range df.length).map (fun k =>
        if spo2ArtifactAt (3/5) df k then none else (df.getD k default).spo2)).getD j none
        = (df.getD j default).spo2 := by
  intro j hj
  rw [getD_range_map _ _ _ hj]
  rw [spo2_artifact_false_of_motionRisk_zero _ _ _
    (motionRisk_zero_of_local_low_vib (3/5) df j (fun k hk _ _ => hvib k hk))]
  rfl

/-- Gap analysis for the spo2 column of the full cleaning pass, for
motion-free inputs: on a missing spo2 run s..e with valid neighbours,
positions before s + 30 are interpolated, later ones stay unknown. -/
theorem clean_spo2_gap (df : List Sample) (s e : ℕ) (a b : ℚ)
    (hvib : ∀ j, j < df.length → (df.getD j default).vibration ≤ 3/5)
    (hs : 1 ≤ s) (he : e + 1 < df.length)
    (hprev : (df.getD (s - 1) default).spo2 = some a)
    (hnext : (df.getD (e + 1) default).spo2 = some b)
    (hrun : ∀ j, s ≤ j → j ≤ e → (df.getD j default).spo2 = none) :
    ∀ i, s ≤ i → i ≤ e →
      ((detect_and_clean_artifacts (3/5) df).getD i default).spo2 =
        if i < s + 30
        then some (a + (b - a) * (((i : ℚ) - ((s - 1 : ℕ) : ℚ)) /
          (((e + 1 : ℕ) : ℚ) - ((s - 1 : ℕ) : ℚ))))
        else none := by
  intro i hsi hie
  have hi : i < df.length := by omega
  rw [clean_getD _ _ _ hi]
  show (interpolateLimit 30 ((List.range df.length).map (fun k =>
    if spo2ArtifactAt (3/5) df k then none else (df.getD k default).spo2))).getD i none
    = _
  have hxs_len : ((List.range df.length).map (fun k =>
      if spo2ArtifactAt (3/5) df k then none else (df.getD k default).spo2)).length
      = df.length := by
    simp
  have hinterp : (interpolateLimit 30 ((List.range df.length).map (fun k =>
      if spo2ArtifactAt (3/5) df k then none else (df.getD k default).spo2))).getD i none
      = interpAt 30 ((List.range df.length).map (fun k =>
        if spo2ArtifactAt (3/5) df k then none else (df.getD k default).spo2)) i := by
    rw [interpolateLimit, hxs_len, getD_range_map _ _ _ hi]
  rw [hinterp]
  exact interpAt_gap _ s e a b hs (by rw [hxs_len]; omega)
    (by rw [spo2Cleared_of_low_vib df hvib (s - 1) (by omega)]; exact hprev)
    (by rw [spo2Cleared_of_low_vib df hvib (e + 1) (by omega)]; exact hnext)
    (fun j hj1 hj2 => by
      rw [spo2Cleared_of_low_vib df hvib j (by omega)]
      exact hrun j hj1 hj2)
    i hsi hie

theorem inp33s_length : inp33s.length = 33 := by simp [inp33s]

theorem inp33s_getD (j : ℕ) (h : j < 33) :
    inp33s.getD j default =
      (if j = 0 then mkS (some 80) (some 98) 0
       else if j = 32 then mkS (some 80) (some 66) 0
       else mkS (some 80) none 0) := by
  rw [inp33s, getD_range_map _ _ _ h]

theorem inp33s_vib (j : ℕ) (h : j < inp33s.length) :
    (inp33s.getD j default).vibration ≤ 3/5 := by
  rw [inp33s_length] at h
  rw [inp33s_getD j h]
  by_cases h0 : j = 0
  · rw [if_pos h0]
    norm_num [mkS]
  · rw [if_neg h0]
    by_cases h32 : j = 32
    · rw [if_pos h32]
      norm_num [mkS]
    · rw [if_neg h32]
      norm_num [mkS]

theorem inp33s_prev : (inp33s.getD (1 - 1) default).spo2 = some 98 := by
  rw [inp33s_getD 0 (by omega), if_pos rfl]
  rfl

theorem inp33s_next : (inp33s.getD (31 + 1) default).spo2 = some 66 := by
  rw [inp33s_getD 32 (by omega), if_neg (by omega), if_pos rfl]
  rfl

theorem inp33s_run (j : ℕ) (h1 : 1 ≤ j) (h31 : j ≤ 31) :
    (inp33s.getD j default).spo2 = none := by
  rw [inp33s_getD j (by omega), if_neg (by omega), if_neg (by omega)]
  rfl

theorem inp33_length : inp33.length = 33 := by simp [inp33]

theorem inp33_getD (j : ℕ) (h : j < 33) :
    inp33.getD j default =
      (if j = 0 then mkS (some 100) (some 98) 0
       else if j = 32 then mkS (some 133) (some 98) 0
       else mkS none (some 98) 0) := by
  rw [inp33, getD_range_map _ _ _ h]

theorem inp33_vib (j : ℕ) (h : j < inp33.length) :
    (inp33.getD j default).vibration ≤ 3/5 := by
  rw [inp33_length] at h
  rw [inp33_getD j h]
  by_cases h0 : j = 0
  · rw [if_pos h0]
    norm_num [mkS]
  · rw [if_neg h0]
    by_cases h32 : j = 32
    · rw [if_pos h32]
      norm_num [mkS]
    · rw [if_neg h32]
      norm_num [mkS]

theorem inp33_prev : (inp33.getD (1 - 1) default).heart_rate = some 100 := by
  rw [inp33_getD 0 (by omega), if_pos rfl]
  rfl

theorem inp33_next : (inp33.getD (31 + 1) default).heart_rate = some 133 := by
  rw [inp33_getD 32 (by omega), if_neg (by omega), if_pos rfl]
  rfl

theorem inp33_run (j : ℕ) (h1 : 1 ≤ j) (h31 : j ≤ 31) :
    (inp33.getD j default).heart_rate = none := by
  rw [inp33_getD j (by omega), if_neg (by omega), if_neg (by omega)]
  rfl

/-- getD of a mapped list in terms of getD of the original list. -/
theorem getD_map_field {α β : Type} [Inhabited α] (f : α → β) (l : List α) (j : ℕ)
    (h : j < l.length) (d : β) : (l.map f).getD j d = f (l.getD j default) := by
  rw [List.getD_eq_getElem?_getD, List.getElem?_map, List.getElem?_eq_getElem h,
    Option.map_some', Option.getD_some, List.getD_eq_getElem?_getD,
    List.getElem?_eq_getElem h, Option.getD_some]

theorem inp62_length : inp62.length = 62 := by simp [inp62]

theorem inp62_getD (j : ℕ) (h : j < 62) :
    inp62.getD j default =
      (if j < 2 then mkS (some 80) (some 98) 1
       else if j = 2 then mkS (some 120) (some 98) 0
       else mkS (some 80) (some 98) 0) := by
  rw [inp62, getD_range_map _ _ _ h]

theorem inp62_vib_zero (j : ℕ) (h2 : 2 ≤ j) (h62 : j < 62) :
    (inp62.getD j default).vibration = 0 := by
  rw [inp62_getD j h62, if_neg (by omega)]
  by_cases hj : j = 2
  · rw [if_pos hj]
    rfl
  · rw [if_neg hj]
    rfl

/-- The 5-row motion window around row 2 of inp62 still sees the heavy
vibration of rows 0-1, so motion_risk at row 2 is 1. -/
theorem inp62_motion_at_2 : motionRiskAt (3/5) inp62 2 = 1 := by
  have hany : (List.range 5).any (fun k => isMotionAt (3/5) inp62 (2 - 2 + k)) = true := by
    apply List.any_eq_true.mpr
    refine ⟨0, by simp, ?_⟩
    show isMotionAt (3/5) inp62 (2 - 2 + 0) = true
    rw [isMotionAt, decide_eq_true_eq]
    rw [show (2 : ℕ) - 2 + 0 = 0 from rfl]
    rw [inp62_getD 0 (by omega), if_pos (by omega)]
    show (3 : ℚ)/5 < 1
    norm_num
  rw [motionRiskAt, if_pos ⟨by omega, by rw [inp62_length]; omega⟩, if_pos hany]

/-- The heart-rate jump at row 2 of inp62 is flagged as an artifact. -/
theorem inp62_hr_artifact_at_2 : hrArtifactAt (3/5) inp62 2 = true := by
  rw [hrArtifactAt, inp62_motion_at_2,
    decide_eq_true (by norm_num : (1 : ℚ)/2 < 1), Bool.true_and]
  have h2 : (inp62.map (·.heart_rate)).getD 2 none = some 120 := by
    rw [getD_map_field _ _ _ (by rw [inp62_length]; omega) _]
    rw [inp62_getD 2 (by omega), if_neg (by omega), if_pos rfl]
    rfl
  have h1 : (inp62.map (·.heart_rate)).getD (2 - 1) none = some 80 := by
    rw [show (2 : ℕ) - 1 = 1 from rfl]
    rw [getD_map_field _ _ _ (by rw [inp62_length]; omega) _]
    rw [inp62_getD 1 (by omega), if_pos (by omega)]
    rfl
  have hd : absDiffAt (inp62.map (·.heart_rate)) 2 = some 40 := by
    rw [absDiffAt, if_neg (by omega), h2, h1]
    show some |(120 : ℚ) - 80| = some 40
    congr 1
    rw [show (120 : ℚ) - 80 = 40 by norm_num]
    exact abs_of_nonneg (by norm_num)
  rw [hd]
  exact decide_eq_true (by norm_num : (5 : ℚ) < 40)

/-- Structural invariant of the threaded risk pass: an alert at position i
forces a breach at i, a breach at i-1 (the incoming flag when i = 0). -/
theorem riskAux_alert (rt ct : ℚ) (rows : List AnomalyRow) :
    ∀ (prev : Bool) (i : ℕ),
      i < (riskAux rt ct prev rows).length →
      ((riskAux rt ct prev rows).getD i default).alert_triggered = true →
      ((riskAux rt ct prev rows).getD i default).risk_threshold_breached = true ∧
      (i = 0 → prev = true) ∧
      (0 < i →
        ((riskAux rt ct prev rows).getD (i - 1) default).risk_threshold_breached = true) := by
  induction rows with
  | nil =>
    intro prev i hi _
    simp [riskAux] at hi
  | cons a rest ih =>
    intro prev i hi halert
    match i with
    | 0 =>
      have hr : (riskAux rt ct prev (a :: rest)).getD 0 default = riskRow rt ct prev a := rfl
      rw [hr] at halert ⊢
      rw [riskRow_alert_eq, riskRow_persistent_eq] at halert
      have h1 := (Bool.and_eq_true _ _).mp halert
      have h2 := (Bool.and_eq_true _ _).mp h1.1
      exact ⟨h2.1, fun _ => h2.2, fun h0 => absurd h0 (lt_irrefl 0)⟩
    | Nat.succ k =>
      have htail : ∀ j, (riskAux rt ct prev (a :: rest)).getD (j + 1) default =
          (riskAux rt ct (riskRow rt ct prev a).risk_threshold_breached rest).getD j default :=
        fun _ => rfl
      have hlen : k < (riskAux rt ct (riskRow rt ct prev a).risk_threshold_breached rest).length := by
        have : (riskAux rt ct prev (a :: rest)).length =
            (riskAux rt ct (riskRow rt ct prev a).risk_threshold_breached rest).length + 1 := rfl
        omega
      rw [htail] at halert
      obtain ⟨b1, b2, b3⟩ := ih (riskRow rt ct prev a).risk_threshold_breached k hlen halert
      refine ⟨by rw [htail]; exact b1, fun h0 => absurd h0 (Nat.succ_ne_zero k), fun _ => ?_⟩
      match k with
      | 0 =>
        have hr : (riskAux rt ct prev (a :: rest)).getD 0 default = riskRow rt ct prev a := rfl
        rw [Nat.succ_sub_one, hr]
        exact b2 rfl
      | Nat.succ k' =>
        rw [Nat.succ_sub_one, htail k']
        exact b3 (Nat.succ_pos k')

/-! ## Claims -/

/-- C1: every /predict request that passes the minimum-size validation gets
anomaly = false: the risk record is computed from a one-row mini-batch, the
previous window's threshold_breached defaults to false under
`.shift(1).fillna(False)`, so persistent_risk and hence alert_triggered are
false. -/
theorem predict_single_shot_never_alerts (data : List Sample)
    (_h : 10 ≤ data.length) : predict_risk_anomaly data = false := by
  simp [predict_risk_anomaly, calculate_risk_and_alerts, riskAux, riskRow]

theorem predict_single_shot_never_alerts_witness :
    predict_risk_anomaly inp10 = false :=
  predict_single_shot_never_alerts inp10 (by decide)

/-- C5 counterexample: a two-sample window whose second heart-rate value is
unknown.  The claim says extract_features returns the arithmetic mean of the
remaining known values (which would be some 80); the code's np.mean
propagates the unknown, giving NaN. -/
theorem unknown_mean_counterexample :
    (extract_features w5).heart_rate_mean = none ∧
    (extract_features w5).heart_rate_mean ≠ some 80 := by decide

/-- C5 (amended): an unknown value in a signal's window is NOT excluded from
that signal's aggregates — uniformly for heart_rate, spo2 and bp_systolic,
np.mean and np.var propagate it (the mean and variance become unknown) and
the slope is forced to 0; only confidence_mean (a pandas skipna mean)
excludes unknowns from its average. -/
theorem unknown_propagation_policy (w : List Cleaned) :
    ((w.map (·.heart_rate)).any (fun x => x.isNone) = true →
      (extract_features w).heart_rate_mean = none ∧
      (extract_features w).heart_rate_var = none ∧
      (extract_features w).heart_rate_slope = 0) ∧
    ((w.map (·.spo2)).any (fun x => x.isNone) = true →
      (extract_features w).spo2_mean = none ∧
      (extract_features w).spo2_var = none ∧
      (extract_features w).spo2_slope = 0) ∧
    ((w.map (·.bp_systolic)).any (fun x => x.isNone) = true →
      (extract_features w).bp_systolic_mean = none ∧
      (extract_features w).bp_systolic_var = none ∧
      (extract_features w).bp_systolic_slope = 0) ∧
    ((w.map (·.artifact_confidence)).any (fun x => x.isSome) = true →
      (extract_features w).confidence_mean ≠ none) := by
  refine ⟨fun h => col_unknown_propagation _ h,
    fun h => col_unknown_propagation _ h,
    fun h => col_unknown_propagation _ h, ?_⟩
  intro hconf
  obtain ⟨y, hymem, hysome⟩ := List.any_eq_true.mp hconf
  obtain ⟨a, rfl⟩ := Option.isSome_iff_exists.mp hysome
  show pdMean (w.map (·.artifact_confidence)) ≠ none
  have hamem : a ∈ (w.map (·.artifact_confidence)).filterMap id :=
    List.mem_filterMap.mpr ⟨some a, hymem, rfl⟩
  rw [pdMean, if_neg]
  · simp
  · intro hlen
    rw [List.length_eq_zero.mp hlen] at hamem
    simp at hamem

theorem unknown_propagation_policy_witness :
    ((extract_features w5).heart_rate_mean = none ∧
     (extract_features w5).heart_rate_var = none ∧
     (extract_features w5).heart_rate_slope = 0) ∧
    ((extract_features w5).spo2_mean = none ∧
     (extract_features w5).spo2_var = none ∧
     (extract_features w5).spo2_slope = 0) ∧
    ((extract_features w5).bp_systolic_mean = none ∧
     (extract_features w5).bp_systolic_var = none ∧
     (extract_features w5).bp_systolic_slope = 0) ∧
    (extract_features w5).confidence_mean ≠ none := by
  have h := unknown_propagation_policy w5
  exact ⟨h.1 (by decide), h.2.1 (by decide), h.2.2.1 (by decide), h.2.2.2 (by decide)⟩

/-- C4 counterexample: on a 10-sample input every artifact_confidence value is
NaN (the centered 60-sample window is never complete), so the first record's
artifact_confidence is not a number in [0,1] as the claim demands of stream
edges. -/
theorem edge_confidence_undefined_counterexample :
    ((detect_and_clean_artifacts (3/5) inp10).getD 0 default).artifact_confidence = none := by
  decide

/-- C4 (amended): risk_score is always clipped into [0,1] whenever it is a
number, final_confidence lies in [0,1] whenever it is a number and the input
confidence is a number in [0,1], and artifact_confidence lies in [0,1]
whenever it is a number — but at stream-edge positions whose centered
60-sample window is incomplete, artifact_confidence is NaN, not a number in
[0,1]. -/
theorem scores_in_unit_range_amended :
    (∀ (mt : ℚ) (df : List Sample) (i : ℕ) (c : ℚ),
      ((detect_and_clean_artifacts mt df).getD i default).artifact_confidence = some c →
        0 ≤ c ∧ c ≤ 1) ∧
    (∀ (rt ct : ℚ) (prev : Bool) (a : AnomalyRow) (r : ℚ),
      (riskRow rt ct prev a).risk_score = some r → 0 ≤ r ∧ r ≤ 1) ∧
    (∀ (rt ct : ℚ) (prev : Bool) (a : AnomalyRow) (f c : ℚ),
      a.confidence = some c → 0 ≤ c → c ≤ 1 →
      (riskRow rt ct prev a).final_confidence = some f → 0 ≤ f ∧ f ≤ 1) := by
  refine ⟨?_, ?_, ?_⟩
  · intro mt df i c h
    rcases Nat.lt_or_ge i df.length with hi | hi
    · rw [clean_getD mt df i hi] at h
      have h' : artifactConfidenceAt df i = some c := h
      rw [artifactConfidenceAt] at h'
      split at h'
      · rw [Option.some.injEq] at h'
        have h1 : min 1 (max 0 ((((List.range 60).map
            (fun k => (df.getD (i - 29 + k) default).vibration)).sum) / 60)) ≤ 1 :=
          min_le_left _ _
        have h2 : (0 : ℚ) ≤ min 1 (max 0 ((((List.range 60).map
            (fun k => (df.getD (i - 29 + k) default).vibration)).sum) / 60)) :=
          le_min zero_le_one (le_max_left _ _)
        constructor <;> linarith [h']
      · exact Option.noConfusion h'
    · rw [List.getD_eq_default _ _ (by rw [clean_length]; exact hi)] at h
      have hd : (default : Cleaned).artifact_confidence = none := rfl
      rw [hd] at h
      exact Option.noConfusion h
  · intro rt ct prev a r h
    exact oclip01_bounds _ _ h
  · intro rt ct prev a f c hc hc0 hc1 h
    have h' : oadd (a.confidence.map (fun x => x * (7/10)))
        (((oclip 0 (1/2) (a.heart_rate_var.map (fun v => v / 100))).map
          (fun x => 1 - x)).map (fun s => s * (3/10))) = some f := h
    rw [hc] at h'
    cases hv : a.heart_rate_var with
    | none => rw [hv] at h'; simp [oadd, oclip] at h'
    | some v =>
      rw [hv] at h'
      simp only [oclip, Option.map_some', oadd, Option.some.injEq] at h'
      set m := min (1/2 : ℚ) (max 0 (v/100)) with hm
      have hm0 : 0 ≤ m := le_min (by norm_num) (le_max_left _ _)
      have hm1 : m ≤ 1/2 := min_le_left _ _
      constructor <;> nlinarith [h']

theorem scores_in_unit_range_amended_witness :
    ((0 : ℚ) ≤ 1 ∧ (1 : ℚ) ≤ 1) ∧
    ((0 : ℚ) ≤ 1 ∧ (1 : ℚ) ≤ 1) ∧
    ((0 : ℚ) ≤ 1/2 ∧ (1/2 : ℚ) ≤ 1) := by
  refine ⟨?_, ?_, ?_⟩
  · exact scores_in_unit_range_amended.1 (3/5) inp61 29 1 inp61_conf_at_29
  · exact scores_in_unit_range_amended.2.1 (3/5) (7/10) false maxRiskLowConfRow 1
      (maxRisk_risk_score false)
  · exact scores_in_unit_range_amended.2.2 (3/5) (7/10) false maxRiskLowConfRow (1/2) (1/2)
      rfl (by norm_num) (by norm_num) (maxRisk_final_confidence false)

/-- C8: a window whose computed risk_score is exactly 1.0 while the fused
final_confidence is at most the confidence threshold (the NaN case counts as
unacceptable too) never triggers an alert and receives an alert_comment
beginning with "SUPPRESSED", regardless of the previous window's
threshold_breached flag. -/
theorem max_risk_low_confidence_suppressed (prev : Bool) (a : AnomalyRow)
    (hrisk : (riskRow (3/5) (7/10) prev a).risk_score = some 1)
    (hconf : (riskRow (3/5) (7/10) prev a).final_confidence.all
      (fun c => decide (c ≤ 7/10)) = true) :
    (riskRow (3/5) (7/10) prev a).alert_triggered = false ∧
    ∃ rest, (riskRow (3/5) (7/10) prev a).alert_comment = "SUPPRESSED" ++ rest := by
  have hbreached : (riskRow (3/5) (7/10) prev a).risk_threshold_breached = true := by
    rw [riskRow_breached_eq, hrisk]
    simp only [oGTb, decide_eq_true_eq]
    norm_num
  have hacc : (riskRow (3/5) (7/10) prev a).confidence_acceptable = false := by
    rw [riskRow_acceptable_eq]
    cases hfc : (riskRow (3/5) (7/10) prev a).final_confidence with
    | none => rfl
    | some c =>
      rw [hfc] at hconf
      simp only [Option.all_some, decide_eq_true_eq] at hconf
      simp only [oGTb, decide_eq_false_iff_not]
      exact not_lt.mpr hconf
  have halert : (riskRow (3/5) (7/10) prev a).alert_triggered = false := by
    rw [riskRow_alert_eq, hacc, Bool.and_false]
  refine ⟨halert, ?_⟩
  rw [riskRow_comment_eq, halert, hbreached, hacc, get_alert_comment]
  refine ⟨": High risk (" ++ fmt2o (riskRow (3/5) (7/10) prev a).risk_score ++
    ") but low confidence (" ++ fmt2o (riskRow (3/5) (7/10) prev a).final_confidence ++
    ") due to motion/artifacts.", ?_⟩
  simp only [Bool.false_eq_true, if_false, Bool.not_false, Bool.and_true, if_true,
    ← String.append_assoc]
  rfl

theorem max_risk_low_confidence_suppressed_witness :
    (riskRow (3/5) (7/10) true maxRiskLowConfRow).alert_triggered = false ∧
    ∃ rest, (riskRow (3/5) (7/10) true maxRiskLowConfRow).alert_comment =
      "SUPPRESSED" ++ rest :=
  max_risk_low_confidence_suppressed true maxRiskLowConfRow
    (maxRisk_risk_score true)
    (by rw [maxRisk_final_confidence true]; norm_num)

/-- C3: for every time-ordered anomaly sequence and every index i,
alert_triggered at i implies risk_threshold_breached at i and at i-1
(threshold_breached before the first window being false under
`.shift(1).fillna(False)`), so in particular the first window of any
sequence never triggers an alert. -/
theorem alert_requires_two_breaches (rows : List AnomalyRow) (rt ct : ℚ) :
    (∀ i, i < (calculate_risk_and_alerts rows rt ct).length →
      ((calculate_risk_and_alerts rows rt ct).getD i default).alert_triggered = true →
      ((calculate_risk_and_alerts rows rt ct).getD i
        default).risk_threshold_breached = true ∧
      0 < i ∧
      ((calculate_risk_and_alerts rows rt ct).getD (i - 1)
        default).risk_threshold_breached = true) ∧
    (0 < (calculate_risk_and_alerts rows rt ct).length →
      ((calculate_risk_and_alerts rows rt ct).getD 0 default).alert_triggered = false) := by
  constructor
  · intro i hi halert
    obtain ⟨b1, b2, b3⟩ := riskAux_alert rt ct rows false i hi halert
    have hipos : 0 < i := by
      rcases Nat.eq_zero_or_pos i with h0 | hpos
      · exact absurd (b2 h0) (by simp)
      · exact hpos
    exact ⟨b1, hipos, b3 hipos⟩
  · intro hlen
    cases halert : ((calculate_risk_and_alerts rows rt ct).getD 0
        default).alert_triggered with
    | false => rfl
    | true =>
      obtain ⟨-, b2, -⟩ := riskAux_alert rt ct rows false 0 hlen halert
      exact absurd (b2 rfl) (by simp)

theorem alert_requires_two_breaches_witness :
    ((calculate_risk_and_alerts [scenarioRow 120, scenarioRow 120] (3/5) (7/10)).getD 1
      default).risk_threshold_breached = true ∧
    ((calculate_risk_and_alerts [scenarioRow 120, scenarioRow 120] (3/5) (7/10)).getD 0
      default).risk_threshold_breached = true := by
  have h := (alert_requires_two_breaches [scenarioRow 120, scenarioRow 120] (3/5) (7/10)).1
    1 (by simp [calculate_risk_and_alerts, riskAux]) (scenario_alert_at_1 120 le_rfl)
  exact ⟨h.1, h.2.2⟩

/-- C2 counterexample: on the spec's scenario window (with bp_systolic_mean
= 120) the computed risk_score is not 0.96: the hr component is
clip((115-75)/45,0,1)·0.4 = 16/45 ≈ 0.356, not 0.4, so the score is
clip((16/45+2/5)·1.2,0,1) = 68/75 ≈ 0.907. -/
theorem scenario_risk_not_096 :
    ((calculate_risk_and_alerts [scenarioRow 120, scenarioRow 120] (3/5) (7/10)).getD 0
      default).risk_score ≠ some (24/25) := by
  rw [scenario_out_getD0, (scenario_record false 120 le_rfl).1]
  intro h
  rw [Option.some.injEq] at h
  norm_num at h

/-- C2 (amended): for two consecutive scenario windows (heart_rate_mean 115,
heart_rate_slope 0.08, spo2_mean 90, spo2_slope -0.02, bp_systolic_mean
≤ 120, confidence_mean 0.9, heart_rate_variance 5) each record has
risk_score = 68/75 ≈ 0.9067 (hr component 16/45 ≈ 0.3556, spo2 component
0.4, bp component 0, synergy multiplier 1.2 applied, no clipping active),
sensor_stability = 0.95 and final_confidence = 0.915, and the second window
has alert_triggered = true with an alert_comment beginning with "CRITICAL". -/
theorem scenario_two_windows_amended (bp : ℚ) (hbp : bp ≤ 120) :
    (∀ i, i < 2 →
      ((calculate_risk_and_alerts [scenarioRow bp, scenarioRow bp] (3/5) (7/10)).getD i
        default).risk_score = some (68/75) ∧
      ((calculate_risk_and_alerts [scenarioRow bp, scenarioRow bp] (3/5) (7/10)).getD i
        default).sensor_stability = some (19/20) ∧
      ((calculate_risk_and_alerts [scenarioRow bp, scenarioRow bp] (3/5) (7/10)).getD i
        default).final_confidence = some (183/200)) ∧
    ((calculate_risk_and_alerts [scenarioRow bp, scenarioRow bp] (3/5) (7/10)).getD 1
      default).alert_triggered = true ∧
    ∃ rest, ((calculate_risk_and_alerts [scenarioRow bp, scenarioRow bp] (3/5)
      (7/10)).getD 1 default).alert_comment = "CRITICAL" ++ rest := by
  refine ⟨?_, scenario_alert_at_1 bp hbp, ?_⟩
  · intro i hi
    match i with
    | 0 => rw [scenario_out_getD0]; exact scenario_record false bp hbp
    | 1 => rw [scenario_out_getD1]; exact scenario_record _ bp hbp
  · rw [scenario_out_getD1, riskRow_comment_eq]
    have halert : (riskRow (3/5) (7/10)
        ((riskRow (3/5) (7/10) false (scenarioRow bp)).risk_threshold_breached)
        (scenarioRow bp)).alert_triggered = true := by
      have h := scenario_alert_at_1 bp hbp
      rwa [scenario_out_getD1] at h
    rw [halert, get_alert_comment]
    refine ⟨": High risk (" ++ fmt2o (riskRow (3/5) (7/10)
        ((riskRow (3/5) (7/10) false (scenarioRow bp)).risk_threshold_breached)
        (scenarioRow bp)).risk_score ++ ") with stable sensor (" ++
        fmt2o (riskRow (3/5) (7/10)
        ((riskRow (3/5) (7/10) false (scenarioRow bp)).risk_threshold_breached)
        (scenarioRow bp)).final_confidence ++ "). " ++ (scenarioRow bp).reasons, ?_⟩
    simp only [if_true, ← String.append_assoc]
    rfl

theorem scenario_two_windows_amended_witness :
    (∀ i, i < 2 →
      ((calculate_risk_and_alerts [scenarioRow 120, scenarioRow 120] (3/5) (7/10)).getD i
        default).risk_score = some (68/75) ∧
      ((calculate_risk_and_alerts [scenarioRow 120, scenarioRow 120] (3/5) (7/10)).getD i
        default).sensor_stability = some (19/20) ∧
      ((calculate_risk_and_alerts [scenarioRow 120, scenarioRow 120] (3/5) (7/10)).getD i
        default).final_confidence = some (183/200)) ∧
    ((calculate_risk_and_alerts [scenarioRow 120, scenarioRow 120] (3/5) (7/10)).getD 1
      default).alert_triggered = true ∧
    ∃ rest, ((calculate_risk_and_alerts [scenarioRow 120, scenarioRow 120] (3/5)
      (7/10)).getD 1 default).alert_comment = "CRITICAL" ++ rest :=
  scenario_two_windows_amended 120 le_rfl

/-- C6 counterexample: on a 40-sample cleaned sequence with W = 30 and
S = 10 the claim's start offsets (those with start + W ≤ L) are 0 and 10,
but detect_anomalies iterates `range(0, len(df) - window_size, step_size)`
whose bound is exclusive, so only start 0 is emitted: the window whose last
sample is the final sample is missing. -/
theorem final_window_excluded_counterexample :
    (detect_anomalies (List.replicate 40 (default : Cleaned)) 30 10).length = 1 ∧
    ((List.range 40).filter (fun s => decide (10 ∣ s) && decide (s + 30 ≤ 40))).length = 2 := by
  constructor
  · rfl
  · rfl

/-- C6 (amended): detect_anomalies emits exactly one feature window per
start offset that is a multiple of S with start + W < L STRICTLY (the
Python range bound `len(df) - window_size` is exclusive); when L - W is a
multiple of S the window ending at the final sample is excluded. -/
theorem detect_anomalies_window_count (df : List Cleaned) (W S : ℕ) (hS : 0 < S) :
    (detect_anomalies df W S).length =
      ((List.range df.length).filter
        (fun s => decide (S ∣ s) && decide (s + W < df.length))).length := by
  have h1 : (detect_anomalies df W S).length = (pyRange (df.length - W) S).length := by
    simp [detect_anomalies]
  have h2 : (List.range df.length).filter
        (fun s => decide (S ∣ s) && decide (s + W < df.length))
      = (List.range df.length).filter
        (fun s => decide (S ∣ s) && decide (s < df.length - W)) := by
    apply List.filter_congr
    intro x _
    congr 1
    rw [decide_eq_decide]
    omega
  rw [h1, pyRange_eq_filter S hS, h2,
    filter_range_and_lt _ _ _ (Nat.sub_le df.length W)]

theorem detect_anomalies_window_count_witness :
    (detect_anomalies (List.replicate 40 (default : Cleaned)) 30 10).length =
      ((List.range (List.replicate 40 (default : Cleaned)).length).filter
        (fun s => decide (10 ∣ s) &&
          decide (s + 30 < (List.replicate 40 (default : Cleaned)).length))).length :=
  detect_anomalies_window_count (List.replicate 40 (default : Cleaned)) 30 10 (by decide)

/-- C10: over a window of size at least 2 whose heart-rate values are all
known, a strictly increasing heart-rate series yields heart_rate_slope > 0
from extract_features, and a constant series yields heart_rate_slope = 0. -/
theorem slope_sign_on_trends (w : List Cleaned) (vs : List ℚ)
    (hw : w.map (·.heart_rate) = vs.map some) (hlen : 2 ≤ vs.length) :
    (List.Pairwise (· < ·) vs → 0 < (extract_features w).heart_rate_slope) ∧
    (∀ c, (∀ x ∈ vs, x = c) → (extract_features w).heart_rate_slope = 0) := by
  have hall : (vs.map some).all Option.isSome = true := by
    rw [List.all_eq_true]
    intro x hx
    obtain ⟨y, _, rfl⟩ := List.mem_map.mp hx
    rfl
  have hslope : (extract_features w).heart_rate_slope = olsSlope vs := by
    show colSlope (w.map (·.heart_rate)) = olsSlope vs
    rw [hw, colSlope, if_pos]
    · congr 1
      rw [List.map_map]
      have hid : ((fun x : Option ℚ => x.getD 0) ∘ some) = id := by
        funext x
        rfl
      rw [hid, List.map_id]
    · exact ⟨by rw [List.length_map]; omega, hall⟩
  rw [hslope]
  constructor
  · intro hmono
    apply olsSlope_pos vs hlen
    intro i j hij hj
    have hi : i < vs.length := by omega
    have hget := List.pairwise_iff_get.mp hmono ⟨i, hi⟩ ⟨j, hj⟩ hij
    rwa [List.getD_eq_getElem vs 0 hi, List.getD_eq_getElem vs 0 hj]
  · intro c hc
    apply olsSlope_const vs c
    intro i hi
    rw [List.getD_eq_getElem vs 0 hi]
    exact hc _ (List.getElem_mem _)

theorem slope_sign_on_trends_witness :
    0 < (extract_features wInc).heart_rate_slope ∧
    (extract_features wConst).heart_rate_slope = 0 := by
  constructor
  · have h := slope_sign_on_trends wInc [1, 2] rfl (by norm_num)
    refine h.1 ?_
    refine List.pairwise_cons.mpr ⟨?_, ?_⟩
    · intro x hx
      rw [List.mem_singleton.mp hx]
      norm_num
    · exact List.pairwise_singleton _ _
  · have h := slope_sign_on_trends wConst [5, 5] rfl (by norm_num)
    refine (h.2 5) ?_
    intro x hx
    rcases List.mem_cons.mp hx with rfl | hx'
    · rfl
    · exact List.mem_singleton.mp hx'

/-- C7 counterexample: inp33 has a 31-sample unknown heart-rate run (rows
1..31) between valid values 100 (row 0) and 133 (row 32).  The claim says no
sample inside such a gap gets an interpolated number, but pandas
interpolate(limit=30) fills the first 30 rows of the run: row 1 becomes
100 + 33/32 = 3233/32, and only row 31 keeps the unknown marker. -/
theorem long_gap_counterexample :
    ((detect_and_clean_artifacts (3/5) inp33).getD 1 default).heart_rate =
      some (3233/32) ∧
    ((detect_and_clean_artifacts (3/5) inp33).getD 31 default).heart_rate = none := by
  have hgap := clean_hr_gap inp33 1 31 100 133 inp33_vib le_rfl
    (by rw [inp33_length]; omega) inp33_prev inp33_next inp33_run
  constructor
  · have h1 := hgap 1 le_rfl (by omega)
    rw [h1, if_pos (by omega)]
    congr 1
    push_cast
    norm_num
  · have h2 := hgap 31 (by omega) le_rfl
    rw [h2, if_neg (by omega)]

/-- C7 (amended): a run of more than 30 consecutive unknown heart_rate or
spo2 values between valid neighbours is only PARTIALLY left unresolved by
detect_and_clean_artifacts: the first 30 positions of the run are replaced
by the linear interpolant between the neighbours, and the unknown marker
survives only from the 31st position of the run onward (stated for
motion-free inputs so that no artifact flag disturbs the run). -/
theorem long_gap_partial_interpolation :
    (∀ (df : List Sample) (s e : ℕ) (a b : ℚ),
      (∀ j, j < df.length → (df.getD j default).vibration ≤ 3/5) →
      1 ≤ s → e + 1 < df.length →
      (df.getD (s - 1) default).heart_rate = some a →
      (df.getD (e + 1) default).heart_rate = some b →
      (∀ j, s ≤ j → j ≤ e → (df.getD j default).heart_rate = none) →
      ∀ i, s ≤ i → i ≤ e →
        ((detect_and_clean_artifacts (3/5) df).getD i default).heart_rate =
          if i < s + 30
          then some (a + (b - a) * (((i : ℚ) - ((s - 1 : ℕ) : ℚ)) /
            (((e + 1 : ℕ) : ℚ) - ((s - 1 : ℕ) : ℚ))))
          else none) ∧
    (∀ (df : List Sample) (s e : ℕ) (a b : ℚ),
      (∀ j, j < df.length → (df.getD j default).vibration ≤ 3/5) →
      1 ≤ s → e + 1 < df.length →
      (df.getD (s - 1) default).spo2 = some a →
      (df.getD (e + 1) default).spo2 = some b →
      (∀ j, s ≤ j → j ≤ e → (df.getD j default).spo2 = none) →
      ∀ i, s ≤ i → i ≤ e →
        ((detect_and_clean_artifacts (3/5) df).getD i default).spo2 =
          if i < s + 30
          then some (a + (b - a) * (((i : ℚ) - ((s - 1 : ℕ) : ℚ)) /
            (((e + 1 : ℕ) : ℚ) - ((s - 1 : ℕ) : ℚ))))
          else none) :=
  ⟨fun df s e a b hvib hs he hprev hnext hrun =>
      clean_hr_gap df s e a b hvib hs he hprev hnext hrun,
   fun df s e a b hvib hs he hprev hnext hrun =>
      clean_spo2_gap df s e a b hvib hs he hprev hnext hrun⟩

theorem long_gap_partial_interpolation_witness :
    ((detect_and_clean_artifacts (3/5) inp33).getD 30 default).heart_rate =
      some (2095/16) ∧
    ((detect_and_clean_artifacts (3/5) inp33s).getD 30 default).spo2 = some 68 := by
  constructor
  · have h := long_gap_partial_interpolation.1 inp33 1 31 100 133 inp33_vib le_rfl
      (by rw [inp33_length]; omega) inp33_prev inp33_next inp33_run 30 (by omega) (by omega)
    rw [h, if_pos (by omega)]
    congr 1
    push_cast
    norm_num
  · have h := long_gap_partial_interpolation.2 inp33s 1 31 98 66 inp33s_vib le_rfl
      (by rw [inp33s_length]; omega) inp33s_prev inp33s_next inp33s_run 30 (by omega)
      (by omega)
    rw [h, if_pos (by omega)]
    congr 1
    push_cast
    norm_num

/-- C9 counterexample: in inp62 the vibration is 0 on the whole 60-row
confidence window rows 2..61, and row 2 lies in that window; yet row 2's
heart-rate jump IS flagged (its 5-row motion window still sees the heavy
vibration of rows 0-1), and row 2's artifact_confidence is NaN rather than
1.0 (its own centered 60-row window is incomplete). -/
theorem zero_vibration_window_counterexample :
    ((detect_and_clean_artifacts (3/5) inp62).getD 2 default).hr_artifact = true ∧
    ((detect_and_clean_artifacts (3/5) inp62).getD 2 default).artifact_confidence
      = none := by
  rw [clean_getD _ _ _ (by rw [inp62_length]; omega)]
  constructor
  · exact inp62_hr_artifact_at_2
  · show artifactConfidenceAt inp62 2 = none
    rw [artifactConfidenceAt, if_neg]
    rintro ⟨h29, -⟩
    omega

/-- C9 (amended): if every row of the 5-row motion window around position p
has vibration at or below the motion threshold, then no hr or spo2 artifact
flag is set at p regardless of how large the signal deltas are; and if p has
a complete centered 60-row confidence window with vibration identically 0 on
it, artifact_confidence at p is exactly 1.0.  Rows of a zero-vibration span
whose motion window reaches outside the span can still be flagged, and rows
whose own centered confidence window is incomplete get NaN, not 1.0. -/
theorem zero_vibration_flags_confidence_amended (df : List Sample) (p : ℕ)
    (hp : p < df.length)
    (hvib : ∀ j, j < df.length → p ≤ j + 2 → j ≤ p + 2 →
      (df.getD j default).vibration ≤ 3/5) :
    (((detect_and_clean_artifacts (3/5) df).getD p default).hr_artifact = false ∧
     ((detect_and_clean_artifacts (3/5) df).getD p default).spo2_artifact = false) ∧
    ((29 ≤ p ∧ p + 30 < df.length ∧ (∀ j, j < df.length → p ≤ j + 29 → j ≤ p + 30 →
        (df.getD j default).vibration = 0)) →
      ((detect_and_clean_artifacts (3/5) df).getD p default).artifact_confidence
        = some 1) := by
  rw [clean_getD _ _ _ hp]
  have hmr : motionRiskAt (3/5) df p = 0 :=
    motionRisk_zero_of_local_low_vib (3/5) df p hvib
  refine ⟨⟨?_, ?_⟩, ?_⟩
  · exact hr_artifact_false_of_motionRisk_zero _ _ _ hmr
  · exact spo2_artifact_false_of_motionRisk_zero _ _ _ hmr
  · rintro ⟨hp29, hp30, hzero⟩
    show artifactConfidenceAt df p = some 1
    rw [artifactConfidenceAt, if_pos ⟨hp29, hp30⟩]
    have hsum : (((List.range 60).map
        (fun k => (df.getD (p - 29 + k) default).vibration)).sum) = 0 := by
      apply List.sum_eq_zero
      intro x hx
      obtain ⟨k, hk, rfl⟩ := List.mem_map.mp hx
      have hk60 := List.mem_range.mp hk
      exact hzero _ (by omega) (by omega) (by omega)
    rw [hsum]
    norm_num [min_def, max_def]

theorem zero_vibration_flags_confidence_amended_witness :
    (((detect_and_clean_artifacts (3/5) inp62).getD 31 default).hr_artifact = false ∧
     ((detect_and_clean_artifacts (3/5) inp62).getD 31 default).spo2_artifact = false) ∧
    ((detect_and_clean_artifacts (3/5) inp62).getD 31 default).artifact_confidence
      = some 1 := by
  have h := zero_vibration_flags_confidence_amended inp62 31
    (by rw [inp62_length]; omega)
    (fun j hj hj1 hj2 => by
      rw [inp62_vib_zero j (by omega) (by rw [inp62_length] at hj; omega)]
      norm_num)
  refine ⟨h.1, h.2 ⟨by omega, by rw [inp62_length]; omega, ?_⟩⟩
  intro j hj hj1 hj2
  exact inp62_vib_zero j (by omega) (by rw [inp62_length] at hj; omega)

end Ambulance
